import Mathlib

/-!
Shallow embedding of the cost-estimation and field-reconciliation core of
src/Updated/app.py (functions fetch_pricing_skus, get_price_for_resource,
estimate_billing_cost_from_api, and the remove/restore/slider field logic of
show_recommendation_page), together with theorems settling the frozen claims
about that code.

Modelling conventions:
* Python dicts whose keys are strings are association lists in insertion
  order; assignment to an existing key replaces the value in place, and
  assignment to a fresh key appends (dictInsert below).  Deleting a key
  (dict.pop) removes every binding of that key, matching the fact that a
  real dict holds each key at most once.
* Python numbers relevant here are ints and the float prices; prices are
  modelled as rationals, so decimal arithmetic is exact.
* A Python value stored in the configuration mapping is modelled by the
  inductive type Value (ints, strings, lists, dicts); this covers every
  shape the surrounding code stores or tests for.
-/

/-- The character U+0027, kept as a named constant. -/
def squote : String := "\x27"

def lbrackStr : String := "["

def rbrackStr : String := "]"

def lcurlStr : String := "\x7b"

def rcurlStr : String := "\x7d"

def commaSp : String := ", "

def colonSp : String := ": "

def emptyStr : String := ""

/-- Does the character list begin with the given needle?  Used to model the
Python substring operator. -/
def strStartsWith : List Char → List Char → Bool
  | [], _ => true
  | _ :: _, [] => false
  | c :: cs, d :: ds => c == d && strStartsWith cs ds

/-- Model of the Python expression needle in hay on strings: true when
needle occurs contiguously inside hay (the empty needle always occurs). -/
def strContains (needle : List Char) : List Char → Bool
  | [] => strStartsWith needle []
  | d :: ds => strStartsWith needle (d :: ds) || strContains needle ds

/-- Python a in b for strings a, b. -/
def pyIn (a b : String) : Bool := strContains a.data b.data

/-- A Python value as stored in the request-configuration mapping. -/
inductive Value where
  | VInt : Int → Value
  | VStr : String → Value
  | VList : List Value → Value
  | VDict : List (String × Value) → Value

open Value

/-- Python truthiness for the modelled values: zero, and empty containers
and strings, are falsy. -/
def pyTruthy : Value → Bool
  | VInt n => n != 0
  | VStr s => s.data != []
  | VList xs => !xs.isEmpty
  | VDict kvs => !kvs.isEmpty

/-- Is the value a dict or a list?  Models isinstance(v, (dict, list)). -/
def isContainerValue : Value → Bool
  | VList _ => true
  | VDict _ => true
  | _ => false

/-- Whitespace characters stripped by the Python int() conversion. -/
def isPySpace (c : Char) : Bool :=
  c == ' ' || c == '\t' || c == '\n' || c == '\r' || c == '\x0b' || c == '\x0c'

/-- Strip leading and trailing whitespace from a character list. -/
def pyStripWs (cs : List Char) : List Char :=
  ((cs.dropWhile isPySpace).reverse.dropWhile isPySpace).reverse

/-- Value of a non-empty run of ASCII decimal digits; none otherwise. -/
def digitsVal (cs : List Char) : Option Nat :=
  if cs ≠ [] ∧ cs.all (fun c => c.isDigit) then
    some (cs.foldl (fun a c => a * 10 + (c.toNat - 48)) 0)
  else none

/-- Model of Python int(s) on a string: surrounding whitespace is stripped,
an optional sign is allowed, the rest must be decimal digits.  (The digit
group separator underscore accepted by CPython is not modelled; no claim
depends on it.) -/
def pyIntOfString (s : String) : Option Int :=
  match pyStripWs s.data with
  | '-' :: rest => (digitsVal rest).map (fun n => -(n : Int))
  | '+' :: rest => (digitsVal rest).map (fun n => (n : Int))
  | cs => (digitsVal cs).map (fun n => (n : Int))

/-- Model of Python int(v): identity on ints, string parsing on strings,
and failure (TypeError) on containers. -/
def pyInt : Value → Option Int
  | VInt n => some n
  | VStr s => pyIntOfString s
  | VList _ => none
  | VDict _ => none

mutual

/-- Model of Python repr for the stored values (string escaping inside
reprs is not reproduced; no claim inspects the repr of a container). -/
def pyRepr : Value → String
  | VInt n => toString n
  | VStr s => squote ++ s ++ squote
  | VList xs => lbrackStr ++ pyReprItems xs ++ rbrackStr
  | VDict kvs => lcurlStr ++ pyReprPairs kvs ++ rcurlStr

def pyReprItems : List Value → String
  | [] => emptyStr
  | [x] => pyRepr x
  | x :: y :: xs => pyRepr x ++ commaSp ++ pyReprItems (y :: xs)

def pyReprPairs : List (String × Value) → String
  | [] => emptyStr
  | [(k, v)] => squote ++ k ++ squote ++ colonSp ++ pyRepr v
  | (k, v) :: y :: xs =>
      squote ++ k ++ squote ++ colonSp ++ pyRepr v ++ commaSp ++ pyReprPairs (y :: xs)

end

/-- Model of Python str(v): a string is itself, everything else is its
repr. -/
def pyStr : Value → String
  | VStr s => s
  | v => pyRepr v

/-- dict.get(k, dflt) on the configuration mapping. -/
def pyGet (config : List (String × Value)) (k : String) (dflt : Value) : Value :=
  (config.lookup k).getD dflt

/-- Python dict assignment d[k] = v: replace the binding in place when the
key is present, append otherwise. -/
def dictInsert (m : List (String × Value)) (k : String) (v : Value) :
    List (String × Value) :=
  if m.any (fun e => e.1 == k) then
    m.map (fun e => if e.1 == k then (e.1, v) else e)
  else m ++ [(k, v)]

/-- The in-memory price catalog skus_price_map: keys are
(description, region, usageType) triples, values are unit prices. -/
abbrev SkuMap : Type := List ((String × String × String) × ℚ)

/-- The loop condition of get_price_for_resource, applied to one stored
entry: the query description must occur inside the stored description, the
query region must occur inside the stored region or the stored region must
be the sentinel global, and the usage type must be equal. -/
def matchPred (resource_desc region usage_type : String)
    (e : (String × String × String) × ℚ) : Bool :=
  pyIn resource_desc e.1.1 && (pyIn region e.1.2.1 || e.1.2.1 == "global")
    && e.1.2.2 == usage_type

/-- Transliteration of get_price_for_resource (src/Updated/app.py lines
70 to 74): scan the catalog in iteration order and return the price of the
first entry whose description, region and usage type match. -/
def get_price_for_resource (resource_desc region usage_type : String) :
    SkuMap → Option ℚ
  | [] => none
  | e :: rest =>
      if matchPred resource_desc region usage_type e then some e.2
      else get_price_for_resource resource_desc region usage_type rest

/-- A calendar date as produced by datetime.strptime with format
%Y-%m-%d. -/
structure PyDate where
  year : Nat
  month : Nat
  day : Nat
deriving DecidableEq

/-- Gregorian leap-year test, as in the Python datetime module. -/
def isLeap (y : Nat) : Bool :=
  y % 4 == 0 && (y % 100 != 0 || y % 400 == 0)

/-- Length of a month of the given year (months are 1 to 12). -/
def daysInMonth (y m : Nat) : Nat :=
  if m = 2 then (if isLeap y then 29 else 28)
  else if m = 4 ∨ m = 6 ∨ m = 9 ∨ m = 11 then 30
  else 31

/-- Days in the months of year y strictly before month m. -/
def daysBeforeMonth (y m : Nat) : Nat :=
  ((List.range (m - 1)).map (fun i => daysInMonth y (i + 1))).sum

/-- Proleptic Gregorian ordinal of a date, with 0001-01-01 mapping to 1,
exactly as date.toordinal in Python; the difference of two ordinals is the
days attribute of the timedelta between the dates.  (The year is at least
1 for any parsed date, so the truncated subtractions never underflow.) -/
def toordinal (dt : PyDate) : Int :=
  let p := dt.year - 1
  ((365 * p + p / 4 - p / 100 + p / 400
      + daysBeforeMonth dt.year dt.month + dt.day : Nat) : Int)

/-- Split a character list at every dash. -/
def splitDash : List Char → List (List Char)
  | [] => [[]]
  | c :: cs =>
      match splitDash cs with
      | h :: t => if c == '-' then [] :: h :: t else (c :: h) :: t
      | [] => if c == '-' then [[], []] else [[c]]

/-- Model of datetime.strptime(s, %Y-%m-%d).date(): the string must be
exactly a four-digit year, a dash, a one- or two-digit month, a dash and a
one- or two-digit day (the CPython strptime regular expressions for %Y, %m
and %d), and the triple must be a valid calendar date with year at least 1;
anything else raises ValueError, modelled as none. -/
def pyParseDate (s : String) : Option PyDate :=
  match splitDash s.data with
  | [ys, ms, ds] =>
      match digitsVal ys, digitsVal ms, digitsVal ds with
      | some y, some m, some d =>
          if ys.length = 4 ∧ (ms.length = 1 ∨ ms.length = 2)
              ∧ (ds.length = 1 ∨ ds.length = 2)
              ∧ 1 ≤ y ∧ 1 ≤ m ∧ m ≤ 12 ∧ 1 ≤ d ∧ d ≤ daysInMonth y m then
            some ⟨y, m, d⟩
          else none
      | _, _, _ => none
  | _ => none

/-- Round an exact rational to the nearest integer, ties to even, the
rounding mode of the Python built-in round. -/
def roundHalfToEven (q : ℚ) : Int :=
  let f := ⌊q⌋
  let frac := q - (f : ℚ)
  if frac < 1 / 2 then f
  else if 1 / 2 < frac then f + 1
  else if f % 2 = 0 then f else f + 1

/-- Model of round(x, 2): round to two decimal places.  (Python rounds the
binary float nearest x; on the exact decimal values of the claims the two
agree.) -/
def pyRound2 (q : ℚ) : ℚ := ((roundHalfToEven (q * 100) : Int) : ℚ) / 100

/-- The fixed description string used for the vCPU price lookup. -/
def cpu_desc : String := "N1 Predefined Instance Core"

/-- The fixed description string used for the memory price lookup. -/
def memory_desc : String := "N1 Predefined Instance Ram"

/-- The fixed description string used for the storage price lookup. -/
def storage_desc : String := "SSD"

/-- The fixed usage type of every estimate lookup. -/
def usageOnDemand : String := "OnDemand"

/-- The gpu_desc_map dict of estimate_billing_cost_from_api: the key None
maps to the Python value None, the three recognised models map to
themselves. -/
def gpuDescTable : List (String × Option String) :=
  [((r"None"), none),
   ((r"NVIDIA T4"), some (r"NVIDIA T4")),
   ((r"NVIDIA A100"), some (r"NVIDIA A100")),
   ((r"NVIDIA V100"), some (r"NVIDIA V100"))]

/-- gpu_desc_map.get(name, None). -/
def gpuDescOf (name : String) : Option String :=
  (gpuDescTable.lookup name).getD none

/-- int(config.get(key, 0) or 0) with a fallback to 0 when the int
conversion raises (src/Updated/app.py lines 144 to 155). -/
def countOf (config : List (String × Value)) (key : String) : Int :=
  let v := pyGet config key (VInt 0)
  if pyTruthy v then (pyInt v).getD 0 else 0

/-- str(config.get(gpu, None-string) or None-string), line 157. -/
def gpuNameOf (config : List (String × Value)) : String :=
  let g := pyGet config (r"gpu") (VStr (r"None"))
  if pyTruthy g then pyStr g else (r"None")

/-- str(config.get(start_date, empty)), the string handed to strptime. -/
def startStrOf (config : List (String × Value)) : String :=
  pyStr (pyGet config (r"start_date") (VStr emptyStr))

/-- str(config.get(end_date, empty)), the string handed to strptime. -/
def endStrOf (config : List (String × Value)) : String :=
  pyStr (pyGet config (r"end_date") (VStr emptyStr))

/-- Lines 159 to 164: parse both dates inside one try block and take
max((end - start).days, 1); any parse failure yields 1. -/
def durationOf (config : List (String × Value)) : Int :=
  match pyParseDate (startStrOf config), pyParseDate (endStrOf config) with
  | some s, some e => max (toordinal e - toordinal s) 1
  | _, _ => 1

/-- A lookup price with the miss-means-zero fallback or 0 of lines 178
to 185. -/
def priceOr0 (desc region usage : String) (m : SkuMap) : ℚ :=
  (get_price_for_resource desc region usage m).getD 0

/-- Lines 182 to 185: the gpu contribution is a catalog lookup only when
gpu_desc_map yields a truthy description, otherwise 0. -/
def gpuPriceOf (config : List (String × Value)) (region : String) (m : SkuMap) : ℚ :=
  match gpuDescOf (gpuNameOf config) with
  | some d => if d = emptyStr then 0 else priceOr0 d region usageOnDemand m
  | none => 0

/-- Transliteration of estimate_billing_cost_from_api (src/Updated/app.py
lines 143 to 191): returns the rounded total cost and the duration in
days. -/
def estimate_billing_cost_from_api (config : List (String × Value))
    (region : String) (m : SkuMap) : ℚ × Int :=
  let vcpu_count := countOf config (r"compute")
  let memory_gb := countOf config (r"memory")
  let storage_gb := countOf config (r"storage")
  let days := durationOf config
  let cpu_price := priceOr0 cpu_desc region usageOnDemand m
  let mem_price := priceOr0 memory_desc region usageOnDemand m
  let storage_price := priceOr0 storage_desc region usageOnDemand m
  let gpu_price := gpuPriceOf config region m
  let hours := days * 24
  let total_cost :=
    ((cpu_price * (vcpu_count : ℚ)) + (mem_price * (memory_gb : ℚ))
        + (storage_price * (storage_gb : ℚ)) + gpu_price) * (hours : ℚ)
  (pyRound2 total_cost, days)

/-- The units/nanos pair of a catalog unit price. -/
structure UnitPrice where
  units : Int
  nanos : Int
deriving DecidableEq

/-- One tiered rate of a pricing expression; the unitPrice key may be
absent (the code then defaults both components to 0). -/
structure TieredRate where
  unitPrice : Option UnitPrice
deriving DecidableEq

/-- The pricingExpression object: only its tieredRates list is read. -/
structure PricingExpression where
  tieredRates : List TieredRate
deriving DecidableEq

/-- One element of the pricingInfo list of a SKU record. -/
structure PricingInfo where
  pricingExpression : PricingExpression
deriving DecidableEq

/-- One SKU record of a catalog page, with exactly the keys the ingestion
loop reads (a missing pricingInfo key behaves as the empty list, a missing
pricingExpression as one with no tieredRates). -/
structure Sku where
  serviceDisplayName : String
  description : String
  usageType : String
  serviceRegions : List String
  pricingInfo : List PricingInfo
deriving DecidableEq

/-- serviceRegions[0] if the list is truthy else the empty string
(src/Updated/app.py line 49). -/
def skuRegion (sku : Sku) : String :=
  match sku.serviceRegions with
  | [] => emptyStr
  | rg :: _ => rg

/-- units + nanos / 1e9 of the first tier, with both components defaulting
to 0 when the unitPrice key is absent (lines 56 to 59). -/
def ratePrice (tr : TieredRate) : ℚ :=
  let up := tr.unitPrice.getD ⟨0, 0⟩
  (up.units : ℚ) + (up.nanos : ℚ) / 1000000000

/-- The service-family filter string of line 51. -/
def computeEngineStr : String := "Compute Engine"

/-- Ingestion of one SKU record (the body of the for sku loop, lines 45 to
61): records outside the Compute Engine family are discarded; for each
pricingInfo element with a non-empty tieredRates list the first tier price
is written into the map under (description, region, usageType). -/
def processSku (m : SkuMap) (sku : Sku) : SkuMap :=
  if pyIn computeEngineStr sku.serviceDisplayName then
    sku.pricingInfo.foldl
      (fun acc pi =>
        match pi.pricingExpression.tieredRates with
        | [] => acc
        | tr :: _ =>
            if acc.any (fun e => e.1 == (sku.description, skuRegion sku, sku.usageType)) then
              acc.map (fun e =>
                if e.1 == (sku.description, skuRegion sku, sku.usageType) then
                  (e.1, ratePrice tr)
                else e)
            else acc ++ [((sku.description, skuRegion sku, sku.usageType), ratePrice tr)])
      m
  else m

/-- Transliteration of the paging loop of fetch_pricing_skus (lines 37 to
68): fold every page of SKU records into the map, starting from the empty
map.  (Pagination tokens and the fetch-failure fallback are outside the
claims; a failed fetch simply truncates the page list.) -/
def fetch_pricing_skus (pages : List (List Sku)) : SkuMap :=
  pages.foldl (fun m page => page.foldl processSku m) ([] : SkuMap)

/-- The reconciler state: the editable configuration mapping
(editable_rec, named conf here) and the removal list (removed_fields). -/
structure RState where
  conf : List (String × Value)
  removed : List String

/-- The quantified resource fields (field_names, line 376). -/
def field_names : List String :=
  [(r"compute"), (r"memory"), (r"storage"), (r"budget")]

/-- The static defaults dict of line 396. -/
def defaultsTable : List (String × Int) :=
  [((r"compute"), 4), ((r"memory"), 16), ((r"storage"), 100), ((r"budget"), 1000)]

/-- defaults.get(field, 0). -/
def defaultFor (field : String) : Int :=
  (defaultsTable.lookup field).getD 0

/-- The remove branch of the keep-checkbox handler (lines 391 to 393): when
the field is not yet in the removal list, append it there and pop it from
the configuration; otherwise nothing happens. -/
def removeField (field : String) (st : RState) : RState :=
  if field ∈ st.removed then st
  else
    { conf := st.conf.filter (fun e => e.1 != field),
      removed := st.removed ++ [field] }

/-- The restore branch of the keep-checkbox handler (lines 394 to 398):
when the field is in the removal list, delete its first occurrence there
and, when the configuration has no binding for it, append the static
default; when the field is not in the removal list nothing happens. -/
def restoreField (field : String) (st : RState) : RState :=
  if field ∈ st.removed then
    { removed := st.removed.erase field,
      conf :=
        if st.conf.any (fun e => e.1 == field) then st.conf
        else st.conf ++ [(field, VInt (defaultFor field))] }
  else st

/-- Model of the value returned by st.slider rendered with the given
bounds and initial value, assuming the user makes no adjustment: the
initial value itself.  (Streamlit requires the value to lie within the
bounds; the call sites below always pass an in-range value.) -/
def stSliderValue (_lo _hi _step v : Int) : Int := v

/-- Result of one slider pass: the updated configuration and whether a
warning was displayed. -/
structure SliderOutcome where
  conf : List (String × Value)
  warned : Bool

/-- The body of the slider loop for one kept field (lines 413 to 431): a
dict- or list-valued entry is skipped with a warning; otherwise the raw
value is coerced with int(), falling back to the field minimum with a
warning when the coercion raises, and the slider value is written back to
the configuration. -/
def sliderStep (field : String) (fmin fmax fstep : Int)
    (rec : List (String × Value)) : SliderOutcome :=
  let val_raw := pyGet rec field (VInt 0)
  if isContainerValue val_raw then ⟨rec, true⟩
  else
    match pyInt val_raw with
    | some n => ⟨dictInsert rec field (VInt (stSliderValue fmin fmax fstep n)), false⟩
    | none => ⟨dictInsert rec field (VInt (stSliderValue fmin fmax fstep fmin)), true⟩

/-- Concrete configuration of the worked estimate example. -/
def cfgExample : List (String × Value) :=
  [((r"compute"), VInt 4), ((r"memory"), VInt 16), ((r"storage"), VInt 100),
   ((r"gpu"), VStr (r"None")),
   ((r"start_date"), VStr (r"2025-08-01")), ((r"end_date"), VStr (r"2025-08-03"))]

/-- Concrete catalog whose lookups yield unit prices 0.03 for the vCPU
description, 0.01 for memory and 0.001 for storage in us-central1. -/
def catExample : SkuMap :=
  [((r"N1 Predefined Instance Core", r"us-central1", r"OnDemand"), 3 / 100),
   ((r"N1 Predefined Instance Ram", r"us-central1", r"OnDemand"), 1 / 100),
   ((r"SSD", r"us-central1", r"OnDemand"), 1 / 1000)]

/-- One-entry catalog with a specific stored region, for the region-match
analysis. -/
def catRegion : SkuMap :=
  [((r"N1 Predefined Instance Core", r"us-central1", r"OnDemand"), 3 / 100)]

/-- The two-entry catalog of the first-match example: a specific-region
entry first, a global entry second, same description and usage type. -/
def catTwoEntry : SkuMap :=
  [((r"N1 Predefined Instance Core", r"us-central1", r"OnDemand"), 3 / 100),
   ((r"N1 Predefined Instance Core", r"global", r"OnDemand"), 5 / 100)]

/-- One-entry catalog whose description strictly contains the storage
query fragment. -/
def catSubstring : SkuMap :=
  [((r"SSD backed PD Capacity", r"us-central1", r"OnDemand"), 17 / 100)]

/-- Configuration holding a non-numeric string in a quantified field. -/
def confCoerceBad : List (String × Value) :=
  [((r"compute"), VStr (r"abc"))]

/-- Configuration holding a list value in a quantified field. -/
def confCoerceList : List (String × Value) :=
  [((r"memory"), VList [])]

/-- A well-formed Compute Engine SKU record (price 0.03). -/
def skuGoodCore : Sku :=
  ⟨(r"Compute Engine"), (r"N1 Predefined Instance Core"), (r"OnDemand"),
   [(r"us-central1")], [⟨⟨[⟨some ⟨0, 30000000⟩⟩]⟩⟩]⟩

/-- A malformed Compute Engine SKU record: its only pricingInfo element
has an empty tieredRates list. -/
def skuMalformed : Sku :=
  ⟨(r"Compute Engine"), (r"Broken record"), (r"OnDemand"),
   [(r"us-central1")], [⟨⟨[]⟩⟩]⟩

/-- A second well-formed Compute Engine SKU record (price 0.01). -/
def skuGoodRam : Sku :=
  ⟨(r"Compute Engine"), (r"N1 Predefined Instance Ram"), (r"OnDemand"),
   [(r"us-central1")], [⟨⟨[⟨some ⟨0, 10000000⟩⟩]⟩⟩]⟩

/-- Configuration with two parseable dates two days apart. -/
def cfgDates : List (String × Value) :=
  [((r"start_date"), VStr (r"2025-08-01")), ((r"end_date"), VStr (r"2025-08-03"))]

/-- Configuration whose start date string is not parseable. -/
def cfgDatesBad : List (String × Value) :=
  [((r"start_date"), VStr (r"not-a-date")), ((r"end_date"), VStr (r"2025-08-03"))]

/-- Reconciler state holding a customised compute value and an empty
removal list. -/
def stCustom : RState :=
  ⟨[((r"compute"), VInt 9), ((r"memory"), VInt 16)], []⟩

/-- Reconciler state for the idempotence witness. -/
def stIdem : RState :=
  ⟨[((r"storage"), VInt 250)], []⟩

/-- Configuration naming an unrecognised GPU model. -/
def cfgUnknownGpu : List (String × Value) :=
  [((r"gpu"), VStr (r"NVIDIA P100"))]

/-- Catalog holding an on-demand price for that unrecognised GPU model in
the requested region. -/
def catUnknownGpu : SkuMap :=
  [((r"NVIDIA P100", r"us-central1", r"OnDemand"), 5)]

theorem priceOr0_nil (d rg u : String) : priceOr0 d rg u ([] : SkuMap) = 0 := rfl

theorem gpuPriceOf_nil (config : List (String × Value)) (rg : String) :
    gpuPriceOf config rg ([] : SkuMap) = 0 := by
  unfold gpuPriceOf
  cases gpuDescOf (gpuNameOf config) with
  | none => rfl
  | some d =>
      by_cases h : d = emptyStr
      · simp [h]
      · simp [h, priceOr0_nil]

theorem pyRound2_zero : pyRound2 0 = 0 := by with_unfolding_all decide

theorem durationOf_ge_one (config : List (String × Value)) : 1 ≤ durationOf config := by
  unfold durationOf
  cases pyParseDate (startStrOf config) <;> cases pyParseDate (endStrOf config) <;>
    simp [le_max_right]

/-- Claim C1: for the configuration with compute 4, memory 16, storage 100,
gpu None, dates 2025-08-01 to 2025-08-03, region us-central1 and a catalog
whose lookups yield unit prices 0.03 (cpu), 0.01 (memory) and 0.001
(storage), the estimate is total 18.24 with a duration of 2 days, i.e. the
total follows (cpuPrice*vcpus + memPrice*memoryGB + storagePrice*storageGB
+ gpuPrice) * durationDays * 24 rounded to 2 decimals. -/
theorem estimate_worked_example :
    get_price_for_resource cpu_desc (r"us-central1") usageOnDemand catExample
        = some (3 / 100)
    ∧ get_price_for_resource memory_desc (r"us-central1") usageOnDemand catExample
        = some (1 / 100)
    ∧ get_price_for_resource storage_desc (r"us-central1") usageOnDemand catExample
        = some (1 / 1000)
    ∧ estimate_billing_cost_from_api cfgExample (r"us-central1") catExample
        = (1824 / 100, 2) := by
  refine ⟨rfl, rfl, rfl, ?_⟩
  with_unfolding_all decide

/-- Claim C2: with an empty catalog the estimate never fails and returns a
total of 0.00 together with a duration of at least one day, for every
configuration and region; every lookup on the empty catalog misses, and a
miss contributes price 0, not an error. -/
theorem estimate_empty_catalog :
    (∀ (config : List (String × Value)) (region : String),
        (estimate_billing_cost_from_api config region ([] : SkuMap)).1 = 0
        ∧ 1 ≤ (estimate_billing_cost_from_api config region ([] : SkuMap)).2)
    ∧ ∀ qd qr qu : String, get_price_for_resource qd qr qu ([] : SkuMap) = none := by
  refine ⟨fun config region => ⟨?_, ?_⟩, fun qd qr qu => rfl⟩
  · simp [estimate_billing_cost_from_api, priceOr0_nil, gpuPriceOf_nil, pyRound2_zero]
  · simpa [estimate_billing_cost_from_api] using durationOf_ge_one config

/-- Claim C3, counterexample: the stored region us-central1 is neither
equal to the requested region central nor the sentinel global, yet the
lookup matches it, because the code tests whether the requested region is
a substring of the stored region. -/
theorem region_equality_counterexample :
    get_price_for_resource (r"N1 Predefined Instance Core") (r"central")
        (r"OnDemand") catRegion = some (3 / 100)
    ∧ (r"central") ≠ (r"us-central1")
    ∧ (r"us-central1") ≠ (r"global") := by
  refine ⟨rfl, by decide, by decide⟩

/-- Claim C3 as amended: a stored entry is matched exactly when the query
description occurs as a substring of the stored description, the requested
region occurs as a substring of the stored region (equality being a special
case) or the stored region is the sentinel global, and the stored usage
type equals the requested one. -/
theorem region_match_characterisation (qd qr qu sd sr su : String) (p : ℚ) :
    get_price_for_resource qd qr qu [((sd, sr, su), p)] = some p
    ↔ (pyIn qd sd = true ∧ (pyIn qr sr = true ∨ sr = (r"global")) ∧ su = qu) := by
  unfold get_price_for_resource
  by_cases h : matchPred qd qr qu ((sd, sr, su), p) = true
  · rw [if_pos h]
    unfold matchPred at h
    simp only [Bool.and_eq_true, Bool.or_eq_true, beq_iff_eq] at h
    exact ⟨fun _ => ⟨h.1.1, h.1.2, h.2⟩, fun _ => rfl⟩
  · rw [if_neg h]
    unfold matchPred at h
    simp only [Bool.and_eq_true, Bool.or_eq_true, beq_iff_eq] at h
    constructor
    · intro hc
      simp [get_price_for_resource] at hc
    · intro hr
      exact absurd ⟨⟨hr.1, hr.2.1⟩, hr.2.2⟩ h

/-- Claim C4: the lookup returns the price of the first entry in iteration
order satisfying the match predicate (substring on description, substring
or global on region, equal usage type); on the two-entry catalog with a
us-central1 entry before a global one it returns 0.03 for us-central1 and
0.05 for asia-east1, and the description test is a substring test, not an
equality test. -/
theorem lookup_first_match :
    (∀ (qd qr qu : String) (m : SkuMap),
        get_price_for_resource qd qr qu m
          = (m.find? (matchPred qd qr qu)).map Prod.snd)
    ∧ get_price_for_resource (r"N1 Predefined Instance Core") (r"us-central1")
        (r"OnDemand") catTwoEntry = some (3 / 100)
    ∧ get_price_for_resource (r"N1 Predefined Instance Core") (r"asia-east1")
        (r"OnDemand") catTwoEntry = some (5 / 100)
    ∧ get_price_for_resource (r"SSD") (r"us-central1") (r"OnDemand") catSubstring
        = some (17 / 100)
    ∧ (r"SSD") ≠ (r"SSD backed PD Capacity") := by
  refine ⟨?_, rfl, rfl, rfl, by decide⟩
  intro qd qr qu m
  induction m with
  | nil => rfl
  | cons e es ih =>
      unfold get_price_for_resource
      by_cases h : matchPred qd qr qu e = true
      · rw [if_pos h, List.find?_cons_of_pos _ h]
        rfl
      · rw [if_neg h, List.find?_cons_of_neg _ (by simp [h]), ih]

/-- Claim C5, counterexample: with the quantified field compute holding the
non-coercible string abc, the slider pass does report a coercion condition,
but it does not leave the stored value unchanged: the field is rewritten to
the field minimum 1 (the code itself warns resetting to minimum). -/
theorem coercion_reset_counterexample :
    pyInt (VStr (r"abc")) = none
    ∧ (sliderStep (r"compute") 1 128 1 confCoerceBad).warned = true
    ∧ (sliderStep (r"compute") 1 128 1 confCoerceBad).conf = [((r"compute"), VInt 1)]
    ∧ confCoerceBad ≠ [((r"compute"), VInt 1)] := by
  refine ⟨rfl, rfl, rfl, ?_⟩
  intro h
  simp [confCoerceBad] at h

/-- Claim C5 as amended: when the raw value of a quantified field cannot be
coerced to an integer the slider pass always reports a condition; a dict-
or list-valued entry is skipped, leaving the configuration unchanged, while
every other non-coercible value is replaced by the field minimum. -/
theorem coercion_reset_amended (conf : List (String × Value)) (field : String)
    (fmin fmax fstep : Int)
    (h : pyInt (pyGet conf field (VInt 0)) = none) :
    (sliderStep field fmin fmax fstep conf).warned = true
    ∧ (isContainerValue (pyGet conf field (VInt 0)) = true →
        (sliderStep field fmin fmax fstep conf).conf = conf)
    ∧ (isContainerValue (pyGet conf field (VInt 0)) = false →
        (sliderStep field fmin fmax fstep conf).conf
          = dictInsert conf field (VInt fmin)) := by
  by_cases hc : isContainerValue (pyGet conf field (VInt 0)) = true
  · refine ⟨?_, fun _ => ?_, fun hfalse => absurd hc (by simp [hfalse])⟩ <;>
      simp [sliderStep, hc]
  · refine ⟨?_, fun htrue => absurd htrue hc, fun _ => ?_⟩ <;>
      simp [sliderStep, hc, h, stSliderValue]

theorem coercion_reset_amended_witness :
    (sliderStep (r"memory") 1 1024 1 confCoerceList).warned = true
    ∧ (sliderStep (r"memory") 1 1024 1 confCoerceList).conf = confCoerceList := by
  have h := coercion_reset_amended confCoerceList (r"memory") 1 1024 1 (by rfl)
  exact ⟨h.1, h.2.1 (by rfl)⟩

/-- Claim C6: a catalog record all of whose pricing entries have an empty
tiered-rate list (in particular one with no pricing information at all)
adds nothing to the index, and ingestion of the surrounding records
continues unchanged. -/
theorem malformed_records_skipped (sku : Sku)
    (h : ∀ pi ∈ sku.pricingInfo, pi.pricingExpression.tieredRates = []) :
    (∀ m : SkuMap, processSku m sku = m)
    ∧ ∀ (page₁ page₂ : List Sku) (m : SkuMap),
        (page₁ ++ sku :: page₂).foldl processSku m
          = (page₁ ++ page₂).foldl processSku m := by
  have hstep : ∀ m : SkuMap, processSku m sku = m := by
    intro m
    unfold processSku
    by_cases hce : pyIn computeEngineStr sku.serviceDisplayName = true
    · rw [if_pos hce]
      have haux : ∀ (l : List PricingInfo),
          (∀ pi ∈ l, pi.pricingExpression.tieredRates = []) →
          ∀ acc : SkuMap,
            l.foldl
              (fun acc pi =>
                match pi.pricingExpression.tieredRates with
                | [] => acc
                | tr :: _ =>
                    if acc.any (fun e =>
                        e.1 == (sku.description, skuRegion sku, sku.usageType)) then
                      acc.map (fun e =>
                        if e.1 == (sku.description, skuRegion sku, sku.usageType) then
                          (e.1, ratePrice tr)
                        else e)
                    else acc ++ [((sku.description, skuRegion sku, sku.usageType),
                          ratePrice tr)])
              acc = acc := by
        intro l hl
        induction l with
        | nil => intro acc; rfl
        | cons a t ih =>
            intro acc
            rw [List.foldl_cons]
            have ha := hl a (List.mem_cons_self a t)
            simp only [ha]
            exact ih (fun pi hpi => hl pi (List.mem_cons_of_mem a hpi)) acc
      exact haux sku.pricingInfo h m
    · rw [if_neg hce]
  refine ⟨hstep, ?_⟩
  intro p1 p2 m
  rw [List.foldl_append, List.foldl_append, List.foldl_cons, hstep]

theorem malformed_records_skipped_witness :
    processSku ([] : SkuMap) skuMalformed = ([] : SkuMap)
    ∧ fetch_pricing_skus [[skuGoodCore, skuMalformed, skuGoodRam]]
        = fetch_pricing_skus [[skuGoodCore, skuGoodRam]] := by
  have h := malformed_records_skipped skuMalformed
    (by intro pi hpi; simp [skuMalformed] at hpi; rw [hpi])
  refine ⟨h.1 ([] : SkuMap), ?_⟩
  have h2 := h.2 [skuGoodCore] [skuGoodRam] ([] : SkuMap)
  simpa [fetch_pricing_skus] using h2

/-- Claim C7: the duration returned by the estimate equals
max((end - start).days, 1) over the parsed date fields, and equals 1
whenever either date string is missing or not parseable as YYYY-MM-DD; the
function is total, so no input raises. -/
theorem duration_from_dates (config : List (String × Value)) (region : String)
    (m : SkuMap) :
    (∀ s e : PyDate,
        pyParseDate (startStrOf config) = some s →
        pyParseDate (endStrOf config) = some e →
        (estimate_billing_cost_from_api config region m).2
          = max (toordinal e - toordinal s) 1)
    ∧ ((pyParseDate (startStrOf config) = none
          ∨ pyParseDate (endStrOf config) = none) →
        (estimate_billing_cost_from_api config region m).2 = 1) := by
  have hd : (estimate_billing_cost_from_api config region m).2 = durationOf config := rfl
  constructor
  · intro s e hs he
    rw [hd]
    unfold durationOf
    rw [hs, he]
  · intro hor
    rw [hd]
    unfold durationOf
    rcases hor with hn | hn
    · rw [hn]
    · cases pyParseDate (startStrOf config) <;> rw [hn]

theorem duration_from_dates_witness :
    (estimate_billing_cost_from_api cfgDates (r"us-central1") ([] : SkuMap)).2 = 2
    ∧ (estimate_billing_cost_from_api cfgDatesBad (r"us-central1") ([] : SkuMap)).2
        = 1 := by
  constructor
  · have h := (duration_from_dates cfgDates (r"us-central1") ([] : SkuMap)).1
      ⟨2025, 8, 1⟩ ⟨2025, 8, 3⟩ (by rfl) (by rfl)
    rw [h]
    decide
  · exact (duration_from_dates cfgDatesBad (r"us-central1") ([] : SkuMap)).2
      (Or.inl (by rfl))

theorem any_filter_self (l : List (String × Value)) (f : String) :
    (l.filter (fun e => e.1 != f)).any (fun e => e.1 == f) = false := by
  induction l with
  | nil => rfl
  | cons a t ih =>
      by_cases h : a.1 = f
      · simp [List.filter_cons, h, ih]
      · simp [List.filter_cons, h, ih]

theorem lookup_filter_self (l : List (String × Value)) (f : String) :
    (l.filter (fun e => e.1 != f)).lookup f = none := by
  induction l with
  | nil => rfl
  | cons a t ih =>
      obtain ⟨k, v⟩ := a
      by_cases h : k = f
      · simp [List.filter_cons, h, ih]
      · simp only [List.filter_cons]
        have hb : ((k, v).1 != f) = true := by simp [h]
        rw [if_pos hb]
        have hf : (f == k) = false := by simp [Ne.symm h]
        simp [List.lookup, hf, ih]

theorem lookup_append_of_none {l1 : List (String × Value)} (l2 : List (String × Value))
    (f : String) (h : l1.lookup f = none) :
    (l1 ++ l2).lookup f = l2.lookup f := by
  induction l1 with
  | nil => rfl
  | cons a t ih =>
      obtain ⟨k, v⟩ := a
      by_cases hk : f = k
      · simp [List.lookup, hk] at h
      · simp only [List.cons_append]
        have hf : (f == k) = false := by simp [hk]
        simp only [List.lookup, hf] at h ⊢
        exact ih h

/-- Claim C8: removing a quantified field and then restoring it leaves the
field present with its fixed static default, regardless of the value it
held before; and restoring a field that was never removed changes neither
the configuration nor the removal list. -/
theorem remove_then_restore_default (st : RState) (field : String)
    (_hq : field ∈ field_names) (hnr : field ∉ st.removed) :
    (restoreField field (removeField field st)).conf.lookup field
        = some (VInt (defaultFor field))
    ∧ (restoreField field (removeField field st)).removed = st.removed
    ∧ restoreField field st = st := by
  have hrm : removeField field st
      = { conf := st.conf.filter (fun e => e.1 != field),
          removed := st.removed ++ [field] } := by
    unfold removeField
    rw [if_neg hnr]
  have hmem : field ∈ st.removed ++ [field] :=
    List.mem_append_right _ (List.mem_singleton.mpr rfl)
  have hany : (st.conf.filter (fun e => e.1 != field)).any (fun e => e.1 == field)
      = false := any_filter_self st.conf field
  refine ⟨?_, ?_, ?_⟩
  · rw [hrm]
    unfold restoreField
    rw [if_pos hmem]
    simp only [hany, Bool.false_eq_true, if_false]
    rw [lookup_append_of_none _ field (lookup_filter_self st.conf field)]
    simp [List.lookup]
  · rw [hrm]
    unfold restoreField
    rw [if_pos hmem]
    simp only []
    rw [List.erase_append_right _ hnr]
    simp [List.erase_cons_head]
  · unfold restoreField
    rw [if_neg hnr]

theorem remove_then_restore_default_witness :
    (restoreField (r"compute") (removeField (r"compute") stCustom)).conf.lookup
        (r"compute") = some (VInt 4)
    ∧ (restoreField (r"compute") (removeField (r"compute") stCustom)).removed = []
    ∧ restoreField (r"compute") stCustom = stCustom := by
  have h := remove_then_restore_default stCustom (r"compute") (by decide)
    (by simp [stCustom])
  refine ⟨?_, ?_, h.2.2⟩
  · have h1 := h.1
    rw [show defaultFor (r"compute") = 4 from rfl] at h1
    exact h1
  · exact h.2.1

/-- Claim C9: removeField is idempotent: for every quantified field and
every reconciler state, applying it twice yields the same state as
applying it once. -/
theorem removeField_idempotent (field : String) (st : RState)
    (_hq : field ∈ field_names) :
    removeField field (removeField field st) = removeField field st := by
  by_cases h : field ∈ st.removed
  · have h1 : removeField field st = st := by
      unfold removeField
      rw [if_pos h]
    rw [h1, h1]
  · have hrm : removeField field st
        = { conf := st.conf.filter (fun e => e.1 != field),
            removed := st.removed ++ [field] } := by
      unfold removeField
      rw [if_neg h]
    rw [hrm]
    unfold removeField
    rw [if_pos (List.mem_append_right _ (List.mem_singleton.mpr rfl))]

theorem removeField_idempotent_witness :
    removeField (r"storage") (removeField (r"storage") stIdem)
      = removeField (r"storage") stIdem :=
  removeField_idempotent (r"storage") stIdem (by decide)

/-- Claim C10, counterexample: the configuration stores the gpu string
NVIDIA P100, which differs from None, and the catalog prices that very
model at 5 per hour in the requested region, yet the estimate performs no
gpu lookup (the model is not in the fixed gpu description map) and returns
a total of 0 for one day instead of the 120.00 the claimed per-model
lookup would add. -/
theorem gpu_lookup_counterexample :
    (r"NVIDIA P100") ≠ (r"None")
    ∧ get_price_for_resource (r"NVIDIA P100") (r"us-central1") (r"OnDemand")
        catUnknownGpu = some 5
    ∧ gpuDescOf (r"NVIDIA P100") = none
    ∧ estimate_billing_cost_from_api cfgUnknownGpu (r"us-central1") catUnknownGpu
        = (0, 1)
    ∧ pyRound2 (((0 : ℚ) + 0 + 0 + 5) * (1 * 24)) = 120
    ∧ (120 : ℚ) ≠ 0 := by
  refine ⟨by decide, rfl, rfl, ?_, ?_, ?_⟩
  · with_unfolding_all decide
  · with_unfolding_all decide
  · with_unfolding_all decide

/-- Claim C10 as amended: the total is the rounded sum of the three fixed
per-dimension lookups plus a gpu contribution, where the gpu contribution
is a per-model lookup only when the gpu string is one of the three
recognised models NVIDIA T4, NVIDIA A100 and NVIDIA V100 of the fixed gpu
description map; None, an absent or falsy gpu field, and every
unrecognised model string map to no description and hence contribute 0
without any lookup. -/
theorem gpu_lookup_amended (config : List (String × Value)) (region : String)
    (m : SkuMap) :
    (estimate_billing_cost_from_api config region m).1
      = pyRound2 ((priceOr0 cpu_desc region usageOnDemand m
            * (countOf config (r"compute") : ℚ)
          + priceOr0 memory_desc region usageOnDemand m
            * (countOf config (r"memory") : ℚ)
          + priceOr0 storage_desc region usageOnDemand m
            * (countOf config (r"storage") : ℚ)
          + gpuPriceOf config region m) * ((durationOf config : ℚ) * 24))
    ∧ ∀ g : String, gpuDescOf g
        = (if g = (r"NVIDIA T4") then some (r"NVIDIA T4")
           else if g = (r"NVIDIA A100") then some (r"NVIDIA A100")
           else if g = (r"NVIDIA V100") then some (r"NVIDIA V100")
           else none) := by
  constructor
  · have h0 : (estimate_billing_cost_from_api config region m).1
        = pyRound2 ((priceOr0 cpu_desc region usageOnDemand m
              * (countOf config (r"compute") : ℚ)
            + priceOr0 memory_desc region usageOnDemand m
              * (countOf config (r"memory") : ℚ)
            + priceOr0 storage_desc region usageOnDemand m
              * (countOf config (r"storage") : ℚ)
            + gpuPriceOf config region m)
            * ((durationOf config * 24 : Int) : ℚ)) := rfl
    rw [h0]
    congr 1
    push_cast
    ring
  · intro g
    by_cases h1 : g = (r"NVIDIA T4")
    · subst h1; rfl
    · by_cases h2 : g = (r"NVIDIA A100")
      · subst h2; rfl
      · by_cases h3 : g = (r"NVIDIA V100")
        · subst h3; rfl
        · by_cases h4 : g = (r"None")
          · subst h4; rfl
          · have b1 : (g == (r"NVIDIA T4")) = false := beq_eq_false_iff_ne.mpr h1
            have b2 : (g == (r"NVIDIA A100")) = false := beq_eq_false_iff_ne.mpr h2
            have b3 : (g == (r"NVIDIA V100")) = false := beq_eq_false_iff_ne.mpr h3
            have b4 : (g == (r"None")) = false := beq_eq_false_iff_ne.mpr h4
            simp [gpuDescOf, gpuDescTable, List.lookup, b1, b2, b3, b4, h1, h2, h3, h4]
